import Mathlib

/-!
# examplco2: heartbeat, config mirror and liveness observer

A shallow embedding of `src/examplco2.go`.  The etcd client (`client.KeysAPI`,
`client.Watcher`) is an interface in the Go source; here it is a record of
functions over an abstract store state (for `Set`/`Delete`) and the list of
results that successive `watcher.Next` calls return (for the watch loops).
-/

namespace Examplco2

/-! ## Go runtime pieces used by the program -/

/-- Go `map[string]T`, kept as an association list; `GoMap.get` is `m[k]` with the
comma-ok form. -/
abbrev GoMap (β : Type) := List (String × β)

namespace GoMap

/-- The lookup `v, ok := m[k]`. -/
def get {β : Type} : GoMap β → String → Option β
  | [], _ => none
  | (k, v) :: rest, q => if k = q then some v else get rest q

/-- The assignment `m[k] = v`: overwrite the entry when the key is present, add it otherwise. -/
def set {β : Type} : GoMap β → String → β → GoMap β
  | [], q, w => [(q, w)]
  | (k, v) :: rest, q, w => if k = q then (k, w) :: rest else (k, v) :: set rest q w

/-- The builtin `delete(m, k)`. -/
def delete {β : Type} : GoMap β → String → GoMap β
  | [], _ => []
  | (k, v) :: rest, q => if k = q then delete rest q else (k, v) :: delete rest q

end GoMap

/-- Go `strings.LastIndex(path, "/")` on the characters of the path: the index of the
last slash, `none` standing for `-1`.  A slash is one byte in UTF-8 and never part of
a longer encoding, so splitting by characters and by bytes agree. -/
def lastIndexSlash : List Char → Option Nat
  | [] => none
  | c :: cs =>
    match lastIndexSlash cs with
    | some i => some (i + 1)
    | none => if c = '/' then some 0 else none

/-- Go `path.Split`: `i := strings.LastIndex(path, "/"); return path[:i+1], path[i+1:]`. -/
def pathSplit (p : String) : String × String :=
  match lastIndexSlash p.data with
  | some i => (String.mk (p.data.take (i + 1)), String.mk (p.data.drop (i + 1)))
  | none => (String.mk (p.data.take 0), String.mk (p.data.drop 0))

/-- The `setting` / `server` variable of `_, setting := path.Split(node.Key)`. -/
def finalSegment (key : String) : String := (pathSplit key).2

/-- Go `int` arithmetic on a 64-bit platform: the result of an operation wrapped into
the range of `int64`. -/
def wrapInt (x : Int) : Int := (x + 2 ^ 63) % 2 ^ 64 - 2 ^ 63

/-! ## etcd client data -/

/-- The dynamic type of an `error` returned by the etcd client: `*client.ClusterError`
(what the watch loops test with a type assertion), `client.Error` with its code, or
anything else. -/
inductive Err where
  | cluster (detail : String)
  | keys (code : Nat) (message : String)
  | other (message : String)
  deriving DecidableEq, Repr

/-- The type assertion `_, ok := err.(*client.ClusterError)`. -/
def Err.isClusterError : Err → Bool
  | Err.cluster _ => true
  | _ => false

/-- `client.Node`: key, value, directory flag and child nodes. -/
inductive Node where
  | mk (key : String) (value : String) (dir : Bool) (nodes : List Node)

namespace Node

def key : Node → String
  | mk k _ _ _ => k

def value : Node → String
  | mk _ v _ _ => v

def dir : Node → Bool
  | mk _ _ d _ => d

def nodes : Node → List Node
  | mk _ _ _ ns => ns

/-- A leaf (non-directory) node with the given key and value. -/
def leaf (k v : String) : Node := mk k v false []

/-- A directory node with the given key and children. -/
def directory (k : String) (children : List Node) : Node := mk k "" true children

end Node

/-- `client.Response`: the action and the node it concerns. -/
structure Response where
  action : String
  node : Node

/-- What one call of `watcher.Next` or `kapi.Get` returns: `(resp, err)`. -/
abbrev Reply := Except Err Response

/-! ## doServer: the config mirror -/

/-- How a run stands: still inside its loop, ended by `log.Fatal(err)`, or returned. -/
inductive Status where
  | running
  | fatal (e : Err)
  | returned
  deriving DecidableEq, Repr

/-- The state of `doServer`: the `settings` map, every map printed by
`fmt.Println(settings)` so far, and the status. -/
structure MirrorState where
  settings : GoMap String
  out : List (GoMap String)
  status : Status

/-- Lines 115-118 of the source: `for _, node := range resp.Node.Nodes` assigning
`settings[setting] = node.Value` with `_, setting := path.Split(node.Key)`. -/
def initSettings (settings : GoMap String) : List Node → GoMap String
  | [] => settings
  | node :: rest => initSettings (settings.set (finalSegment node.key) node.value) rest

/-- Lines 134-141 of the source: the `switch resp.Action` of the watch loop. -/
def applyEvent (settings : GoMap String) (resp : Response) : GoMap String :=
  if resp.action = "set" then
    settings.set (finalSegment resp.node.key) resp.node.value
  else if resp.action = "delete" ∨ resp.action = "expire" then
    settings.delete (finalSegment resp.node.key)
  else
    settings

/-- Lines 124-144 of the source: the `for true` loop of `doServer`, run over the
results that successive `watcher.Next` calls return.  A `*client.ClusterError` is
skipped with `continue`; any other error is `log.Fatal`; an event goes through the
switch and the map is printed. -/
def doServerLoop (settings : GoMap String) (out : List (GoMap String)) :
    List Reply → MirrorState
  | [] => { settings := settings, out := out, status := Status.running }
  | Except.error err :: rest =>
    if err.isClusterError then doServerLoop settings out rest
    else { settings := settings, out := out, status := Status.fatal err }
  | Except.ok resp :: rest =>
    doServerLoop (applyEvent settings resp) (out ++ [applyEvent settings resp]) rest

/-- The function `doServer`: `got` is what `kapi.Get(key, Recursive: true)` returns and
`watch` what the watcher created afterwards returns call by call. -/
def doServer (got : Reply) (watch : List Reply) : MirrorState :=
  match got with
  | Except.error err => { settings := [], out := [], status := Status.fatal err }
  | Except.ok resp =>
    doServerLoop (initSettings [] resp.node.nodes) [initSettings [] resp.node.nodes] watch

/-! ## doServerWatch: the liveness observer -/

/-- The state of `doServerWatch`: the lines printed so far and the status. -/
structure ObserverState where
  out : List String
  status : Status
  deriving DecidableEq, Repr

/-- Lines 199-211 of the source: `_, server := path.Split(resp.Node.Key)` and the line
printed by the `switch resp.Action`. -/
def watchReport (resp : Response) : String :=
  if resp.action = "create" then
    finalSegment resp.node.key ++ " has started heart beat"
  else if resp.action = "compareAndSwap" then
    finalSegment resp.node.key ++ " heart beat"
  else if resp.action = "compareAndDelete" then
    finalSegment resp.node.key ++ " has shut down correctly"
  else if resp.action = "expire" then
    "*** " ++ finalSegment resp.node.key ++ " has missed heartbeat"
  else
    "Didn't handle " ++ resp.action

/-- Lines 187-212 of the source: the `for true` loop of `doServerWatch` over the results
of successive `watcher.Next` calls.  For an event it prints the key and value, then the
line of the switch. -/
def doServerWatchLoop (out : List String) : List Reply → ObserverState
  | [] => { out := out, status := Status.running }
  | Except.error err :: rest =>
    if err.isClusterError then doServerWatchLoop out rest
    else { out := out, status := Status.fatal err }
  | Except.ok resp :: rest =>
    doServerWatchLoop
      (out ++ [resp.node.key ++ " " ++ resp.node.value, watchReport resp]) rest

/-- The function `doServerWatch`, given what its watcher returns call by call. -/
def doServerWatch (watch : List Reply) : ObserverState :=
  doServerWatchLoop [] watch

/-! ## doServerBeat: the heartbeat manager -/

/-- `client.PrevExistType`. -/
inductive PrevExistType where
  | prevIgnore
  | prevExist
  | prevNoExist
  deriving DecidableEq, Repr

/-- The fields of `client.SetOptions` the program sets; `ttl` is in seconds and an
empty `prevValue` is the Go zero value (no value required). -/
structure SetOptions where
  prevValue : String
  prevExist : PrevExistType
  ttl : Nat
  deriving DecidableEq, Repr

/-- The field of `client.DeleteOptions` the program sets. -/
structure DeleteOptions where
  prevValue : String
  deriving DecidableEq, Repr

/-- A store operation issued through `kapi`, as recorded in the trace of a run. -/
inductive StoreOp where
  | set (key value : String) (opts : SetOptions)
  | delete (key : String) (opts : DeleteOptions)
  deriving DecidableEq, Repr

/-- The world `doServerBeat` runs in, over a store state `σ`: `kapi.Set`, `kapi.Delete`
(each returning `(resp, err)` and the store afterwards) and what happens to the store
while the process is in `time.Sleep` for the given number of seconds. -/
structure Env (σ : Type) where
  set : σ → String → String → SetOptions → Reply × σ
  delete : σ → String → DeleteOptions → Reply × σ
  sleep : σ → Int → σ

/-- The state of `doServerBeat`: the store, the store operations issued so far, the
lines printed so far and the status. -/
structure BeatState (σ : Type) where
  store : σ
  trace : List StoreOp
  out : List String
  status : Status

/-- `var runningbase = "/running/"`. -/
def runningbase : String := "/running/"

/-- `var configbase = "/config/"`. -/
def configbase : String := "/config/"

/-- The options of the registering `Set` (line 154). -/
def registerOptions : SetOptions :=
  { prevValue := "", prevExist := PrevExistType.prevNoExist, ttl := 60 }

/-- The options of the renewing `Set` (line 165). -/
def renewOptions (uuidstring : String) : SetOptions :=
  { prevValue := uuidstring, prevExist := PrevExistType.prevExist, ttl := 60 }

/-- Lines 162-175 of the source: the `for running` loop.  Each round sleeps, prints,
issues the renewing `Set` and is fatal on any error; with a non-zero count the counter
is decremented and the loop ends when it reaches zero.  `fuel` bounds the number of
rounds modelled; the status stays `running` when it is used up. -/
def beatLoop {σ : Type} (env : Env σ) (key uuidstring : String)
    (serverbeattime serverbeatcount : Int) :
    Nat → Int → σ → List StoreOp → List String → BeatState σ
  | 0, _, store, trace, out =>
    { store := store, trace := trace, out := out, status := Status.running }
  | fuel + 1, counter, store, trace, out =>
    match env.set (env.sleep store serverbeattime) key uuidstring (renewOptions uuidstring) with
    | (Except.error err, store1) =>
      { store := store1, trace := trace ++ [StoreOp.set key uuidstring (renewOptions uuidstring)],
        out := out ++ ["Badum"], status := Status.fatal err }
    | (Except.ok _, store1) =>
      if serverbeatcount ≠ 0 then
        if wrapInt (counter - 1) = 0 then
          { store := store1,
            trace := trace ++ [StoreOp.set key uuidstring (renewOptions uuidstring)],
            out := out ++ ["Badum"], status := Status.returned }
        else
          beatLoop env key uuidstring serverbeattime serverbeatcount fuel
            (wrapInt (counter - 1)) store1
            (trace ++ [StoreOp.set key uuidstring (renewOptions uuidstring)])
            (out ++ ["Badum"])
      else
        beatLoop env key uuidstring serverbeattime serverbeatcount fuel counter store1
          (trace ++ [StoreOp.set key uuidstring (renewOptions uuidstring)])
          (out ++ ["Badum"])

/-- Lines 177-180 of the source: the terminating `Delete`, fatal on any error. -/
def beatDelete {σ : Type} (env : Env σ) (key uuidstring : String)
    (store : σ) (trace : List StoreOp) (out : List String) : BeatState σ :=
  match env.delete store key { prevValue := uuidstring } with
  | (Except.error err, store1) =>
    { store := store1, trace := trace ++ [StoreOp.delete key { prevValue := uuidstring }],
      out := out, status := Status.fatal err }
  | (Except.ok _, store1) =>
    { store := store1, trace := trace ++ [StoreOp.delete key { prevValue := uuidstring }],
      out := out, status := Status.returned }

/-- The function `doServerBeat`.  `uuidstring` is the string of the fresh
`uuid.NewV4()`; `serverbeattime` and `serverbeatcount` are the `rate` and `count`
flags; `fuel` bounds the rounds of the loop. -/
def doServerBeat {σ : Type} (env : Env σ) (serverbeatname uuidstring : String)
    (serverbeattime serverbeatcount : Int) (fuel : Nat) (store : σ) : BeatState σ :=
  match env.set store (runningbase ++ serverbeatname) uuidstring registerOptions with
  | (Except.error err, store1) =>
    { store := store1,
      trace := [StoreOp.set (runningbase ++ serverbeatname) uuidstring registerOptions],
      out := ["Badum"], status := Status.fatal err }
  | (Except.ok _, store1) =>
    match beatLoop env (runningbase ++ serverbeatname) uuidstring serverbeattime
        serverbeatcount fuel serverbeatcount store1
        [StoreOp.set (runningbase ++ serverbeatname) uuidstring registerOptions]
        ["Badum"] with
    | { store := store2, trace := trace2, out := out2, status := Status.returned } =>
      beatDelete env (runningbase ++ serverbeatname) uuidstring store2 trace2 out2
    | stopped => stopped

/-! ## The store the heartbeat runs against -/

/-- A stored liveness entry: the value and its lease in seconds (0 for none). -/
structure Entry where
  value : String
  ttl : Nat
  deriving DecidableEq, Repr

/-- The contents of the model store. -/
abbrev Store := GoMap Entry

/-- Modelled from the spec: the conditional `set` of the external key-value store
(sections 3, 4.4 and the glossary).  A create-only write (`PrevNoExist`) fails when the
key holds a value; a write requiring existence (`PrevExist`) fails when the key is
absent; a required previous value must equal the stored value; a successful write
stores the value with the given lease.  Error codes and actions are those of etcd v2. -/
def modelSet (s : Store) (key value : String) (opts : SetOptions) : Reply × Store :=
  match opts.prevExist, s.get key with
  | PrevExistType.prevNoExist, some _ => (Except.error (Err.keys 105 "Key already exists"), s)
  | PrevExistType.prevNoExist, none =>
    (Except.ok ⟨"create", Node.leaf key value⟩, s.set key ⟨value, opts.ttl⟩)
  | PrevExistType.prevExist, none => (Except.error (Err.keys 100 "Key not found"), s)
  | PrevExistType.prevExist, some e =>
    if opts.prevValue = "" then
      (Except.ok ⟨"update", Node.leaf key value⟩, s.set key ⟨value, opts.ttl⟩)
    else if e.value = opts.prevValue then
      (Except.ok ⟨"compareAndSwap", Node.leaf key value⟩, s.set key ⟨value, opts.ttl⟩)
    else (Except.error (Err.keys 101 "Compare failed"), s)
  | PrevExistType.prevIgnore, none =>
    if opts.prevValue = "" then
      (Except.ok ⟨"set", Node.leaf key value⟩, s.set key ⟨value, opts.ttl⟩)
    else (Except.error (Err.keys 100 "Key not found"), s)
  | PrevExistType.prevIgnore, some e =>
    if opts.prevValue = "" then
      (Except.ok ⟨"set", Node.leaf key value⟩, s.set key ⟨value, opts.ttl⟩)
    else if e.value = opts.prevValue then
      (Except.ok ⟨"compareAndSwap", Node.leaf key value⟩, s.set key ⟨value, opts.ttl⟩)
    else (Except.error (Err.keys 101 "Compare failed"), s)

/-- Modelled from the spec: the conditional `delete` of the external key-value store
(sections 3, 4.4 and the glossary): it fails when the key is absent or when a required
previous value differs from the stored one, and removes the key otherwise. -/
def modelDelete (s : Store) (key : String) (opts : DeleteOptions) : Reply × Store :=
  match s.get key with
  | none => (Except.error (Err.keys 100 "Key not found"), s)
  | some e =>
    if opts.prevValue = "" then
      (Except.ok ⟨"delete", Node.leaf key ""⟩, s.delete key)
    else if e.value = opts.prevValue then
      (Except.ok ⟨"compareAndDelete", Node.leaf key ""⟩, s.delete key)
    else (Except.error (Err.keys 101 "Compare failed"), s)

/-- Modelled from the spec: the model store together with what happens to its contents
while the heartbeat sleeps (leases lapsing, other processes writing), given as
`elapse`. -/
def modelEnvWith (elapse : Store → Int → Store) : Env Store :=
  { set := modelSet, delete := modelDelete, sleep := elapse }

/-- Modelled from the spec: the store of the heartbeat scenarios, in which no store
operation fails for a reason other than its condition and no lease expires while the
process sleeps. -/
def modelEnv : Env Store := modelEnvWith (fun s _ => s)

/-- Modelled from the spec: a store that answers the first operation it receives with a
transient coordination error (`*client.ClusterError`) and behaves as `modelEnv`
afterwards; the state pairs the number of operations received with the contents. -/
def flakyEnv : Env (Nat × Store) :=
  { set := fun s key value opts =>
      if s.1 = 0 then (Except.error (Err.cluster "etcd cluster is unavailable"), (1, s.2))
      else ((modelSet s.2 key value opts).1, (s.1 + 1, (modelSet s.2 key value opts).2)),
    delete := fun s key opts =>
      if s.1 = 0 then (Except.error (Err.cluster "etcd cluster is unavailable"), (1, s.2))
      else ((modelDelete s.2 key opts).1, (s.1 + 1, (modelDelete s.2 key opts).2)),
    sleep := fun s _ => s }

/-! ## The reference the config mirror is compared with -/

/-- The reference flat map of the spec: a finite partial function from variable names
to values. -/
abbrev FlatMap := String → Option String

/-- Insert or overwrite one key of the reference map. -/
def FlatMap.insert (f : FlatMap) (k v : String) : FlatMap :=
  fun q => if q = k then some v else f q

/-- Erase one key of the reference map. -/
def FlatMap.erase (f : FlatMap) (k : String) : FlatMap :=
  fun q => if q = k then none else f q

/-- The pieces a key falls into when it is cut at every slash. -/
def pathSegments : List Char → List (List Char)
  | [] => [[]]
  | c :: cs =>
    if c = '/' then [] :: pathSegments cs
    else
      match pathSegments cs with
      | [] => [[c]]
      | s :: ss => (c :: s) :: ss

/-- The final path segment of a key in the words of the spec: the last of the pieces
between slashes. -/
def refSegment (key : String) : String :=
  String.mk ((pathSegments key.data).getLastD [])

/-- The reference semantics of one set/delete operation: set inserts or overwrites the
final path segment of the node key with the node value, delete erases it. -/
def refApply (f : FlatMap) (e : Response) : FlatMap :=
  if e.action = "set" then f.insert (refSegment e.node.key) e.node.value
  else if e.action = "delete" then f.erase (refSegment e.node.key)
  else f

/-- The reference fold of a sequence of operations over a flat map. -/
def refReplay (f : FlatMap) (events : List Response) : FlatMap :=
  events.foldl refApply f

/-- The reference map with the contents of a settings map. -/
def toFlatMap (m : GoMap String) : FlatMap := fun q => m.get q

/-- Whether a watch result is something other than a transient coordination error. -/
def notTransient : Reply → Bool
  | Except.error err => !err.isClusterError
  | Except.ok _ => true

mutual
/-- The leaf (non-directory) nodes of a subtree, in listing order. -/
def Node.leaves : Node → List Node
  | Node.mk k v d ns => if d then Node.leavesOfList ns else [Node.mk k v d ns]
/-- The leaf nodes of a list of subtrees. -/
def Node.leavesOfList : List Node → List Node
  | [] => []
  | n :: ns => n.leaves ++ Node.leavesOfList ns
end

/-! ## Lemmas on the map operations and the path split -/

theorem GoMap.get_set {β : Type} (m : GoMap β) (k q : String) (v : β) :
    (m.set k v).get q = if q = k then some v else m.get q := by
  induction m with
  | nil =>
    by_cases h : q = k
    · simp [GoMap.set, GoMap.get, h]
    · have h2 : ¬ k = q := fun e => h e.symm
      simp [GoMap.set, GoMap.get, h, h2]
  | cons p rest ih =>
    obtain ⟨a, b⟩ := p
    by_cases hak : a = k
    · subst hak
      by_cases hq : q = a
      · subst hq; simp [GoMap.set, GoMap.get]
      · have h2 : ¬ a = q := fun e => hq e.symm
        simp [GoMap.set, GoMap.get, hq, h2]
    · by_cases haq : a = q
      · subst haq
        simp [GoMap.set, GoMap.get, hak]
      · simp [GoMap.set, GoMap.get, hak, haq, ih]

theorem GoMap.get_delete {β : Type} (m : GoMap β) (k q : String) :
    (m.delete k).get q = if q = k then none else m.get q := by
  induction m with
  | nil => simp [GoMap.delete, GoMap.get]
  | cons p rest ih =>
    obtain ⟨a, b⟩ := p
    by_cases hak : a = k
    · subst hak
      by_cases hq : q = a
      · subst hq; simp [GoMap.delete, GoMap.get, ih]
      · have h2 : ¬ a = q := fun e => hq e.symm
        simp [GoMap.delete, GoMap.get, hq, h2, ih]
    · by_cases haq : a = q
      · subst haq
        simp [GoMap.delete, GoMap.get, hak]
      · simp [GoMap.delete, GoMap.get, hak, haq, ih]

theorem pathSegments_of_no_slash (cs : List Char) (h : lastIndexSlash cs = none) :
    pathSegments cs = [cs] := by
  induction cs with
  | nil => rfl
  | cons c cs ih =>
    unfold lastIndexSlash at h
    cases hl : lastIndexSlash cs with
    | some i => simp [hl] at h
    | none =>
      simp only [hl] at h
      by_cases hc : c = '/'
      · simp [hc] at h
      · simp [pathSegments, hc, ih hl]

theorem pathSegments_of_slash (cs : List Char) (i : Nat) (h : lastIndexSlash cs = some i) :
    ∃ s t ss, pathSegments cs = s :: t :: ss ∧ (t :: ss).getLastD [] = cs.drop (i + 1) := by
  induction cs generalizing i with
  | nil => simp [lastIndexSlash] at h
  | cons c cs ih =>
    unfold lastIndexSlash at h
    cases hl : lastIndexSlash cs with
    | some j =>
      simp only [hl, Option.some.injEq] at h
      subst h
      obtain ⟨s, t, ss, hseg, hlast⟩ := ih j hl
      by_cases hc : c = '/'
      · refine ⟨[], s, t :: ss, by simp [pathSegments, hc, hseg], ?_⟩
        simpa [List.getLastD] using hlast
      · exact ⟨c :: s, t, ss, by simp [pathSegments, hc, hseg], by simpa using hlast⟩
    | none =>
      simp only [hl] at h
      by_cases hc : c = '/'
      · simp only [hc, if_true, Option.some.injEq] at h
        subst h
        refine ⟨[], cs, [], by simp [pathSegments, hc, pathSegments_of_no_slash cs hl], ?_⟩
        simp
      · simp [hc] at h

/-- Go `path.Split` returns as file the final path segment in the sense of the spec. -/
theorem finalSegment_eq_refSegment (key : String) : finalSegment key = refSegment key := by
  unfold finalSegment pathSplit refSegment
  cases hl : lastIndexSlash key.data with
  | none => simp [pathSegments_of_no_slash _ hl]
  | some i =>
    obtain ⟨s, t, ss, hseg, hlast⟩ := pathSegments_of_slash _ i hl
    simp only [hseg]
    have : (s :: t :: ss).getLastD [] = (t :: ss).getLastD [] := by simp [List.getLastD]
    rw [this, hlast]

/-! ## Config mirror -/

theorem applyEvent_get (m : GoMap String) (e : Response) (q : String) :
    (applyEvent m e).get q =
      if e.action = "set" then
        (if q = finalSegment e.node.key then some e.node.value else m.get q)
      else if e.action = "delete" ∨ e.action = "expire" then
        (if q = finalSegment e.node.key then none else m.get q)
      else m.get q := by
  unfold applyEvent
  split
  · exact GoMap.get_set _ _ _ _
  · split
    · exact GoMap.get_delete _ _ _
    · rfl

theorem doServerLoop_events_status (m : GoMap String) (out : List (GoMap String))
    (events : List Response) :
    (doServerLoop m out (events.map Except.ok)).status = Status.running := by
  induction events generalizing m out with
  | nil => rfl
  | cons e rest ih => simpa [doServerLoop] using ih _ _

theorem refApply_agrees (m : GoMap String) (f : FlatMap) (e : Response)
    (hf : ∀ q, m.get q = f q) (he : e.action = "set" ∨ e.action = "delete") :
    ∀ q, (applyEvent m e).get q = refApply f e q := by
  intro q
  rw [applyEvent_get, finalSegment_eq_refSegment]
  unfold refApply FlatMap.insert FlatMap.erase
  rcases he with h | h
  · simp [h, hf]
  · have h1 : ¬ e.action = "set" := by rw [h]; decide
    simp [h, hf]

theorem doServerLoop_refines (events : List Response) :
    ∀ (m : GoMap String) (out : List (GoMap String)) (f : FlatMap),
      (∀ q, m.get q = f q) →
      (∀ e ∈ events, e.action = "set" ∨ e.action = "delete") →
      ∀ q, (doServerLoop m out (events.map Except.ok)).settings.get q
        = refReplay f events q := by
  induction events with
  | nil => intro m out f hf _ q; simpa [doServerLoop, refReplay] using hf q
  | cons e rest ih =>
    intro m out f hf hall q
    have he := hall e (List.mem_cons_self _ _)
    have hrest : ∀ x ∈ rest, x.action = "set" ∨ x.action = "delete" :=
      fun x hx => hall x (List.mem_cons_of_mem _ hx)
    have := ih (applyEvent m e) (out ++ [applyEvent m e]) (refApply f e)
      (refApply_agrees m f e hf he) hrest q
    simpa [doServerLoop, refReplay] using this

/-- C1: for every starting mapping and every finite sequence of watch events whose
action is "set" or "delete", the settings map held by the watch loop of `doServer`
after the events agrees, key by key, with the fold of the same operations over the
reference flat map keyed by the final path segment (set inserts or overwrites, delete
erases), and the loop is still running; the same holds for `doServer` from any
listing; and the listing `config/S1` with `a = 1`, `b = 2` followed by a delete of
`b` leaves exactly the map with the one entry `a = 1`. -/
theorem configMirror_replay_equivalence (m : GoMap String) (out : List (GoMap String))
    (listing : Response) (events : List Response)
    (h : ∀ e ∈ events, e.action = "set" ∨ e.action = "delete") :
    (∀ q, (doServerLoop m out (events.map Except.ok)).settings.get q
        = refReplay (toFlatMap m) events q)
    ∧ (doServerLoop m out (events.map Except.ok)).status = Status.running
    ∧ (∀ q, (doServer (Except.ok listing) (events.map Except.ok)).settings.get q
        = refReplay (toFlatMap (initSettings [] listing.node.nodes)) events q)
    ∧ (doServer
        (Except.ok ⟨"get", Node.directory "/config/S1"
          [Node.leaf "/config/S1/a" "1", Node.leaf "/config/S1/b" "2"]⟩)
        [Except.ok ⟨"delete", Node.leaf "/config/S1/b" ""⟩]).settings = [("a", "1")] := by
  refine ⟨?_, doServerLoop_events_status m out events, ?_, by decide⟩
  · exact doServerLoop_refines events m out _ (fun _ => rfl) h
  · exact doServerLoop_refines events _ _ _ (fun _ => rfl) h

/-- C1 at a concrete run: the listing `a = 1`, `b = 2` followed by a set of `c` and a
delete of `b`. -/
theorem configMirror_replay_equivalence_witness :
    (∀ e ∈ [(⟨"set", Node.leaf "/config/S1/c" "3"⟩ : Response),
            ⟨"delete", Node.leaf "/config/S1/b" ""⟩],
        e.action = "set" ∨ e.action = "delete")
    ∧ (∀ q, (doServerLoop [("a", "1"), ("b", "2")] []
          ([(⟨"set", Node.leaf "/config/S1/c" "3"⟩ : Response),
            ⟨"delete", Node.leaf "/config/S1/b" ""⟩].map Except.ok)).settings.get q
        = refReplay (toFlatMap [("a", "1"), ("b", "2")])
            [(⟨"set", Node.leaf "/config/S1/c" "3"⟩ : Response),
             ⟨"delete", Node.leaf "/config/S1/b" ""⟩] q) :=
  ⟨by simp,
   (configMirror_replay_equivalence [("a", "1"), ("b", "2")] []
      ⟨"get", Node.directory "/config/S1" []⟩
      [⟨"set", Node.leaf "/config/S1/c" "3"⟩, ⟨"delete", Node.leaf "/config/S1/b" ""⟩]
      (by simp)).1⟩

/-- C9, as stated, fails: an event with action "update" does not upsert its entry; the
mirror started from the empty listing still has no entry `a` after an update of
`config/S1/a` to `1`. -/
theorem configMirror_update_not_upserted :
    (doServer (Except.ok ⟨"get", Node.directory "/config/S1" []⟩)
        [Except.ok ⟨"update", Node.leaf "/config/S1/a" "1"⟩]).settings.get "a" = none
    ∧ (doServer (Except.ok ⟨"get", Node.directory "/config/S1" []⟩)
        [Except.ok ⟨"update", Node.leaf "/config/S1/a" "1"⟩]).settings.get "a" ≠ some "1" := by
  constructor <;> decide

/-- C9, amended: for every mapping `m` and change event `e`, the watch loop continues
with the mapping `applyEvent m e` and prints it, where: if the action is "set" the
final path segment of the node key is mapped to the node value and every other key is
as in `m`; if the action is "delete" or "expire" that segment is removed and every
other key is as in `m`; for every other action, "update" included, the mapping is
`m` unchanged. -/
theorem configMirror_event_dispatch (m : GoMap String) (out : List (GoMap String))
    (e : Response) (rest : List Reply) :
    doServerLoop m out (Except.ok e :: rest)
      = doServerLoop (applyEvent m e) (out ++ [applyEvent m e]) rest
    ∧ (e.action = "set" → ∀ q, (applyEvent m e).get q
        = if q = finalSegment e.node.key then some e.node.value else m.get q)
    ∧ (e.action = "delete" ∨ e.action = "expire" → ∀ q, (applyEvent m e).get q
        = if q = finalSegment e.node.key then none else m.get q)
    ∧ (e.action ≠ "set" → e.action ≠ "delete" → e.action ≠ "expire" → applyEvent m e = m)
    ∧ (e.action = "update" → applyEvent m e = m) := by
  refine ⟨rfl, ?_, ?_, ?_, ?_⟩
  · intro h q
    rw [applyEvent_get]; simp [h]
  · intro h q
    have h1 : ¬ e.action = "set" := by rcases h with h | h <;> (rw [h]; decide)
    rw [applyEvent_get]; simp [h1, h]
  · intro h1 h2 h3
    simp [applyEvent, h1, h2, h3]
  · intro h
    simp [applyEvent, h]

/-- C9 amended, at concrete events: a set, an expire and an update applied to the map
with `a = 1`. -/
theorem configMirror_event_dispatch_witness :
    (applyEvent [("a", "1")] ⟨"set", Node.leaf "/config/S1/b" "2"⟩).get "b" = some "2"
    ∧ (applyEvent [("a", "1")] ⟨"expire", Node.leaf "/config/S1/a" ""⟩).get "a" = none
    ∧ applyEvent [("a", "1")] ⟨"update", Node.leaf "/config/S1/a" "7"⟩ = [("a", "1")] :=
  ⟨((configMirror_event_dispatch [("a", "1")] [] ⟨"set", Node.leaf "/config/S1/b" "2"⟩ []).2.1
      rfl "b").trans (by decide),
   ((configMirror_event_dispatch [("a", "1")] [] ⟨"expire", Node.leaf "/config/S1/a" ""⟩ []).2.2.1
      (Or.inr rfl) "a").trans (by decide),
   (configMirror_event_dispatch [("a", "1")] [] ⟨"update", Node.leaf "/config/S1/a" "7"⟩ []).2.2.2.2
      rfl⟩

/-- C10: at the listing of `config/S1` holding the directory `config/S1/sub` with the one
leaf `config/S1/sub/x = 1`, the only leaf of the subtree is `x = 1`, yet the initial
mapping of `doServer` is the one entry `sub` with the empty value: it has an entry for
the directory and none for the leaf.  The watch loop of the same function, given the
set of that same leaf, records it under its final segment `x`. -/
theorem initialMapping_ignores_nested_leaves :
    (Node.directory "/config/S1"
        [Node.directory "/config/S1/sub" [Node.leaf "/config/S1/sub/x" "1"]]).leaves.map
        (fun n => (finalSegment n.key, n.value)) = [("x", "1")]
    ∧ (doServer (Except.ok ⟨"get", Node.directory "/config/S1"
        [Node.directory "/config/S1/sub" [Node.leaf "/config/S1/sub/x" "1"]]⟩) []).settings
        = [("sub", "")]
    ∧ (doServer (Except.ok ⟨"get", Node.directory "/config/S1"
        [Node.directory "/config/S1/sub" [Node.leaf "/config/S1/sub/x" "1"]]⟩) []).settings.get
        "x" ≠ some "1"
    ∧ (doServer (Except.ok ⟨"get", Node.directory "/config/S1"
        [Node.directory "/config/S1/sub" [Node.leaf "/config/S1/sub/x" "1"]]⟩) []).settings.get
        "sub" = some ""
    ∧ (doServer (Except.ok ⟨"get", Node.directory "/config/S1" []⟩)
        [Except.ok ⟨"set", Node.leaf "/config/S1/sub/x" "1"⟩]).settings = [("x", "1")] := by
  refine ⟨by decide, by decide, by decide, by decide, by decide⟩

/-- C7, as stated, fails: when the recursive get reports that the key does not exist,
`doServer` ends with a fatal error, prints no mapping and never reaches the watch. -/
theorem configMirror_missing_subtree_is_fatal :
    (doServer (Except.error (Err.keys 100 "Key not found"))
        [Except.ok ⟨"set", Node.leaf "/config/S1/a" "1"⟩]).status
      = Status.fatal (Err.keys 100 "Key not found")
    ∧ (doServer (Except.error (Err.keys 100 "Key not found"))
        [Except.ok ⟨"set", Node.leaf "/config/S1/a" "1"⟩]).status ≠ Status.running
    ∧ (doServer (Except.error (Err.keys 100 "Key not found"))
        [Except.ok ⟨"set", Node.leaf "/config/S1/a" "1"⟩]).out = [] := by
  refine ⟨by decide, by decide, by decide⟩

/-- C7, amended: when the recursive get returns a node with no children, the initial
mapping of `doServer` is empty, it is printed, and the mirror goes on to the watch
loop with it; when the get returns an error, a missing key included, `doServer` ends
with that error as fatal, having printed nothing and consumed nothing of the watch. -/
theorem configMirror_initialization (action key value : String) (dir : Bool) (err : Err)
    (watch : List Reply) :
    doServer (Except.ok ⟨action, Node.mk key value dir []⟩) watch = doServerLoop [] [[]] watch
    ∧ (doServer (Except.ok ⟨action, Node.mk key value dir []⟩) []).settings = []
    ∧ (doServer (Except.ok ⟨action, Node.mk key value dir []⟩) []).status = Status.running
    ∧ doServer (Except.error err) watch
      = { settings := [], out := [], status := Status.fatal err } := by
  refine ⟨rfl, rfl, rfl, rfl⟩

/-! ## Transient errors in the watch loops -/

theorem doServerLoop_filter (stream : List Reply) :
    ∀ (m : GoMap String) (out : List (GoMap String)),
      doServerLoop m out (stream.filter notTransient) = doServerLoop m out stream := by
  induction stream with
  | nil => intro m out; rfl
  | cons r rest ih =>
    intro m out
    cases r with
    | error err =>
      cases hc : err.isClusterError with
      | true => simp [List.filter, notTransient, doServerLoop, hc, ih]
      | false => simp [List.filter, notTransient, doServerLoop, hc]
    | ok resp => simp [List.filter, notTransient, doServerLoop, ih]

theorem doServerWatchLoop_filter (stream : List Reply) :
    ∀ (out : List String),
      doServerWatchLoop out (stream.filter notTransient) = doServerWatchLoop out stream := by
  induction stream with
  | nil => intro out; rfl
  | cons r rest ih =>
    intro out
    cases r with
    | error err =>
      cases hc : err.isClusterError with
      | true => simp [List.filter, notTransient, doServerWatchLoop, hc, ih]
      | false => simp [List.filter, notTransient, doServerWatchLoop, hc]
    | ok resp => simp [List.filter, notTransient, doServerWatchLoop, ih]

/-- C6: in both watch loops, when `watcher.Next` returns a `*client.ClusterError` the
loop goes on to the next result of the same watcher with its mapping, its output and
its status untouched; any other error ends the loop as fatal with the state as it was;
and for every stream of results, the run (mappings published, final mapping, lines
printed, status) equals the run on the stream with the transient errors removed. -/
theorem transient_watch_errors_invisible (m : GoMap String) (out : List (GoMap String))
    (lines : List String) (err : Err) (got : Reply) (rest stream : List Reply) :
    (err.isClusterError = true →
        doServerLoop m out (Except.error err :: rest) = doServerLoop m out rest
        ∧ doServerWatchLoop lines (Except.error err :: rest) = doServerWatchLoop lines rest)
    ∧ (err.isClusterError = false →
        doServerLoop m out (Except.error err :: rest)
          = { settings := m, out := out, status := Status.fatal err }
        ∧ doServerWatchLoop lines (Except.error err :: rest)
          = { out := lines, status := Status.fatal err })
    ∧ doServerLoop m out (stream.filter notTransient) = doServerLoop m out stream
    ∧ doServer got (stream.filter notTransient) = doServer got stream
    ∧ doServerWatchLoop lines (stream.filter notTransient) = doServerWatchLoop lines stream
    ∧ doServerWatch (stream.filter notTransient) = doServerWatch stream := by
  refine ⟨?_, ?_, doServerLoop_filter stream m out, ?_, doServerWatchLoop_filter stream lines,
    doServerWatchLoop_filter stream []⟩
  · intro h
    simp [doServerLoop, doServerWatchLoop, h]
  · intro h
    simp [doServerLoop, doServerWatchLoop, h]
  · cases got with
    | error e => rfl
    | ok resp => exact doServerLoop_filter stream _ _

/-- C6 at concrete streams: a cluster error before a set event leaves the run of the
set event alone, and a non-cluster error is fatal. -/
theorem transient_watch_errors_invisible_witness :
    (Err.cluster "etcd cluster is unavailable").isClusterError = true
    ∧ doServerLoop [("a", "1")] []
        [Except.error (Err.cluster "etcd cluster is unavailable"),
         Except.ok ⟨"set", Node.leaf "/config/S1/b" "2"⟩]
      = doServerLoop [("a", "1")] [] [Except.ok ⟨"set", Node.leaf "/config/S1/b" "2"⟩]
    ∧ (Err.other "unexpected end of JSON input").isClusterError = false
    ∧ doServerWatchLoop [] [Except.error (Err.other "unexpected end of JSON input"),
         Except.ok ⟨"create", Node.leaf "/running/S1" "u"⟩]
      = { out := [], status := Status.fatal (Err.other "unexpected end of JSON input") } :=
  ⟨rfl,
   ((transient_watch_errors_invisible [("a", "1")] [] []
      (Err.cluster "etcd cluster is unavailable") (Except.error (Err.other ""))
      [Except.ok ⟨"set", Node.leaf "/config/S1/b" "2"⟩] []).1 rfl).1,
   rfl,
   ((transient_watch_errors_invisible [] [] []
      (Err.other "unexpected end of JSON input") (Except.error (Err.other ""))
      [Except.ok ⟨"create", Node.leaf "/running/S1" "u"⟩] []).2.1 rfl).2⟩

/-! ## Liveness observer -/

theorem doServerWatchLoop_events (events : List Response) :
    ∀ lines : List String,
      doServerWatchLoop lines (events.map Except.ok)
        = { out := lines ++ events.flatMap
              (fun e => [e.node.key ++ " " ++ e.node.value, watchReport e]),
            status := Status.running } := by
  induction events with
  | nil => intro lines; simp [doServerWatchLoop]
  | cons e rest ih =>
    intro lines
    simp [doServerWatchLoop, ih, List.flatMap_cons]

/-- C2: the line `doServerWatch` prints for an event is a total function of the action
string and the final path segment of the node key: "create" gives
"<server> has started heart beat", "compareAndSwap" gives "<server> heart beat",
"compareAndDelete" gives "<server> has shut down correctly", "expire" gives
"*** <server> has missed heartbeat", every other action gives "Didn't handle <action>";
two events with the same action and the same final key segment get the same line
whatever their node values; and the loop prints that line, after the key and value,
for every event and goes on: the output of `doServerWatch` on a sequence of events,
also with transient errors in between, is exactly, event by event and in order, the
key-and-value line followed by the report of that event, none dropped and nothing
else printed, and the observer is still running. -/
theorem livenessObserver_classification (node : Node) (e1 e2 : Response)
    (lines : List String) (rest : List Reply) (events : List Response)
    (stream : List Reply) :
    watchReport ⟨"create", node⟩ = finalSegment node.key ++ " has started heart beat"
    ∧ watchReport ⟨"compareAndSwap", node⟩ = finalSegment node.key ++ " heart beat"
    ∧ watchReport ⟨"compareAndDelete", node⟩
        = finalSegment node.key ++ " has shut down correctly"
    ∧ watchReport ⟨"expire", node⟩ = "*** " ++ finalSegment node.key ++ " has missed heartbeat"
    ∧ (e1.action ≠ "create" → e1.action ≠ "compareAndSwap" → e1.action ≠ "compareAndDelete" →
        e1.action ≠ "expire" → watchReport e1 = "Didn't handle " ++ e1.action)
    ∧ (e1.action = e2.action → finalSegment e1.node.key = finalSegment e2.node.key →
        watchReport e1 = watchReport e2)
    ∧ doServerWatchLoop lines (Except.ok e1 :: rest)
        = doServerWatchLoop
            (lines ++ [e1.node.key ++ " " ++ e1.node.value, watchReport e1]) rest
    ∧ doServerWatch [Except.ok e1]
        = { out := [e1.node.key ++ " " ++ e1.node.value, watchReport e1],
            status := Status.running }
    ∧ doServerWatchLoop lines (events.map Except.ok)
        = { out := lines ++ events.flatMap
              (fun e => [e.node.key ++ " " ++ e.node.value, watchReport e]),
            status := Status.running }
    ∧ doServerWatch (events.map Except.ok)
        = { out := events.flatMap
              (fun e => [e.node.key ++ " " ++ e.node.value, watchReport e]),
            status := Status.running }
    ∧ (stream.filter notTransient = events.map Except.ok →
        doServerWatch stream
          = { out := events.flatMap
                (fun e => [e.node.key ++ " " ++ e.node.value, watchReport e]),
              status := Status.running }) := by
  have hall : doServerWatch (events.map Except.ok)
      = { out := events.flatMap
            (fun e => [e.node.key ++ " " ++ e.node.value, watchReport e]),
          status := Status.running } := by
    simpa [doServerWatch] using doServerWatchLoop_events events []
  refine ⟨?_, ?_, ?_, ?_, ?_, ?_, rfl, rfl, doServerWatchLoop_events events lines, hall, ?_⟩
  · simp [watchReport]
  · simp [watchReport]
  · simp [watchReport]
  · simp [watchReport]
  · intro h1 h2 h3 h4
    simp [watchReport, h1, h2, h3, h4]
  · intro ha hk
    simp [watchReport, ha, hk]
  · intro hf
    have hfilter : doServerWatch (stream.filter notTransient) = doServerWatch stream :=
      doServerWatchLoop_filter stream []
    rw [← hfilter, hf, hall]

/-- C2 at concrete events on `running/S1`: the report for a create, the fallback for
"set", two "expire" events with different values, and the whole output of
`doServerWatch` on a create, a transient error, a renewal and an expiry. -/
theorem livenessObserver_classification_witness :
    watchReport ⟨"create", Node.leaf "/running/S1" "u1"⟩ = "S1 has started heart beat"
    ∧ watchReport ⟨"set", Node.leaf "/running/S1" "u1"⟩ = "Didn't handle set"
    ∧ watchReport ⟨"expire", Node.leaf "/running/S1" "u1"⟩
        = watchReport ⟨"expire", Node.leaf "/running/S1" "u2"⟩
    ∧ doServerWatch
        [Except.ok ⟨"create", Node.leaf "/running/S1" "u1"⟩,
         Except.error (Err.cluster "etcd cluster is unavailable"),
         Except.ok ⟨"compareAndSwap", Node.leaf "/running/S1" "u1"⟩,
         Except.ok ⟨"expire", Node.leaf "/running/S1" "u1"⟩]
      = { out := ["/running/S1 u1", "S1 has started heart beat",
                  "/running/S1 u1", "S1 heart beat",
                  "/running/S1 u1", "*** S1 has missed heartbeat"],
          status := Status.running } :=
  ⟨(livenessObserver_classification (Node.leaf "/running/S1" "u1")
      ⟨"set", Node.leaf "/running/S1" "u1"⟩ ⟨"set", Node.leaf "/running/S1" "u1"⟩ [] []
      [] []).1.trans (by decide),
   ((livenessObserver_classification (Node.leaf "/running/S1" "u1")
      ⟨"set", Node.leaf "/running/S1" "u1"⟩ ⟨"set", Node.leaf "/running/S1" "u1"⟩ [] []
      [] []).2.2.2.2.1
      (by decide) (by decide) (by decide) (by decide)).trans (by decide),
   (livenessObserver_classification (Node.leaf "/running/S1" "u1")
      ⟨"expire", Node.leaf "/running/S1" "u1"⟩ ⟨"expire", Node.leaf "/running/S1" "u2"⟩
      [] [] [] []).2.2.2.2.2.1 rfl rfl,
   ((livenessObserver_classification (Node.leaf "/running/S1" "u1")
      ⟨"set", Node.leaf "/running/S1" "u1"⟩ ⟨"set", Node.leaf "/running/S1" "u1"⟩ [] []
      [⟨"create", Node.leaf "/running/S1" "u1"⟩,
       ⟨"compareAndSwap", Node.leaf "/running/S1" "u1"⟩,
       ⟨"expire", Node.leaf "/running/S1" "u1"⟩]
      [Except.ok ⟨"create", Node.leaf "/running/S1" "u1"⟩,
       Except.error (Err.cluster "etcd cluster is unavailable"),
       Except.ok ⟨"compareAndSwap", Node.leaf "/running/S1" "u1"⟩,
       Except.ok ⟨"expire", Node.leaf "/running/S1" "u1"⟩]).2.2.2.2.2.2.2.2.2.2
      rfl).trans (by decide)⟩

/-! ## Heartbeat: lemmas on the loop and on the model store -/

theorem beatLoop_round_error {σ : Type} (env : Env σ) (key u : String) (rate count : Int)
    (fuel : Nat) (counter : Int) (store s1 : σ) (trace : List StoreOp) (out : List String)
    (err : Err)
    (h : env.set (env.sleep store rate) key u (renewOptions u) = (Except.error err, s1)) :
    beatLoop env key u rate count (fuel + 1) counter store trace out
      = { store := s1, trace := trace ++ [StoreOp.set key u (renewOptions u)],
          out := out ++ ["Badum"], status := Status.fatal err } := by
  rw [beatLoop]
  simp only [h]

theorem beatLoop_round_ok {σ : Type} (env : Env σ) (key u : String) (rate count : Int)
    (fuel : Nat) (counter : Int) (store s1 : σ) (trace : List StoreOp) (out : List String)
    (r : Response)
    (h : env.set (env.sleep store rate) key u (renewOptions u) = (Except.ok r, s1)) :
    beatLoop env key u rate count (fuel + 1) counter store trace out
      = if count ≠ 0 then
          if wrapInt (counter - 1) = 0 then
            { store := s1, trace := trace ++ [StoreOp.set key u (renewOptions u)],
              out := out ++ ["Badum"], status := Status.returned }
          else
            beatLoop env key u rate count fuel (wrapInt (counter - 1)) s1
              (trace ++ [StoreOp.set key u (renewOptions u)]) (out ++ ["Badum"])
        else
          beatLoop env key u rate count fuel counter s1
            (trace ++ [StoreOp.set key u (renewOptions u)]) (out ++ ["Badum"]) := by
  rw [beatLoop]
  simp only [h]

theorem doServerBeat_register_error {σ : Type} (env : Env σ) (name u : String)
    (rate count : Int) (fuel : Nat) (store s1 : σ) (err : Err)
    (h : env.set store (runningbase ++ name) u registerOptions = (Except.error err, s1)) :
    doServerBeat env name u rate count fuel store
      = { store := s1, trace := [StoreOp.set (runningbase ++ name) u registerOptions],
          out := ["Badum"], status := Status.fatal err } := by
  unfold doServerBeat
  simp only [h]

theorem doServerBeat_registered {σ : Type} (env : Env σ) (name u : String)
    (rate count : Int) (fuel : Nat) (store s1 : σ) (r : Response)
    (h : env.set store (runningbase ++ name) u registerOptions = (Except.ok r, s1)) :
    doServerBeat env name u rate count fuel store
      = if (beatLoop env (runningbase ++ name) u rate count fuel count s1
            [StoreOp.set (runningbase ++ name) u registerOptions] ["Badum"]).status
            = Status.returned then
          beatDelete env (runningbase ++ name) u
            (beatLoop env (runningbase ++ name) u rate count fuel count s1
              [StoreOp.set (runningbase ++ name) u registerOptions] ["Badum"]).store
            (beatLoop env (runningbase ++ name) u rate count fuel count s1
              [StoreOp.set (runningbase ++ name) u registerOptions] ["Badum"]).trace
            (beatLoop env (runningbase ++ name) u rate count fuel count s1
              [StoreOp.set (runningbase ++ name) u registerOptions] ["Badum"]).out
        else
          beatLoop env (runningbase ++ name) u rate count fuel count s1
            [StoreOp.set (runningbase ++ name) u registerOptions] ["Badum"] := by
  unfold doServerBeat
  simp only [h]
  generalize beatLoop env (runningbase ++ name) u rate count fuel count s1
    [StoreOp.set (runningbase ++ name) u registerOptions] ["Badum"] = L
  obtain ⟨st, tr, o, status⟩ := L
  cases status <;> simp

theorem modelSet_register_absent (s : Store) (key u : String) (h : s.get key = none) :
    modelSet s key u registerOptions
      = (Except.ok ⟨"create", Node.leaf key u⟩, s.set key ⟨u, 60⟩) := by
  simp [modelSet, registerOptions, h]

theorem modelSet_register_present (s : Store) (key u : String) (e : Entry)
    (h : s.get key = some e) :
    modelSet s key u registerOptions = (Except.error (Err.keys 105 "Key already exists"), s) := by
  simp [modelSet, registerOptions, h]

theorem modelSet_renew_ok (s : Store) (key u : String) (e : Entry)
    (h : s.get key = some e) (hv : e.value = u) :
    ∃ r, modelSet s key u (renewOptions u) = (Except.ok r, s.set key ⟨u, 60⟩) := by
  by_cases hu : u = ""
  · exact ⟨⟨"update", Node.leaf key u⟩, by simp [modelSet, renewOptions, h, hu]⟩
  · exact ⟨⟨"compareAndSwap", Node.leaf key u⟩, by simp [modelSet, renewOptions, h, hu, hv]⟩

theorem modelSet_renew_mismatch (s : Store) (key u : String) (hu : u ≠ "")
    (h : ∀ e, s.get key = some e → e.value ≠ u) :
    ∃ err, modelSet s key u (renewOptions u) = (Except.error err, s)
      ∧ (err = Err.keys 100 "Key not found" ∨ err = Err.keys 101 "Compare failed") := by
  cases hg : s.get key with
  | none => exact ⟨_, by simp [modelSet, renewOptions, hg], Or.inl rfl⟩
  | some e =>
    have hv := h e hg
    exact ⟨_, by simp [modelSet, renewOptions, hg, hu, hv], Or.inr rfl⟩

theorem modelDelete_ok (s : Store) (key u : String) (e : Entry)
    (h : s.get key = some e) (hv : e.value = u) :
    ∃ r, modelDelete s key { prevValue := u } = (Except.ok r, s.delete key) := by
  by_cases hu : u = ""
  · exact ⟨⟨"delete", Node.leaf key ""⟩, by simp [modelDelete, h, hu]⟩
  · exact ⟨⟨"compareAndDelete", Node.leaf key ""⟩, by simp [modelDelete, h, hu, hv]⟩

theorem GoMap.set_set {β : Type} (m : GoMap β) (k : String) (v w : β) :
    (m.set k v).set k w = m.set k w := by
  induction m with
  | nil => simp [GoMap.set]
  | cons p rest ih =>
    obtain ⟨a, b⟩ := p
    by_cases hak : a = k
    · simp [GoMap.set, hak]
    · simp [GoMap.set, hak, ih]

theorem GoMap.delete_set_of_absent {β : Type} (m : GoMap β) (k : String) (v : β)
    (h : m.get k = none) : (m.set k v).delete k = m := by
  induction m with
  | nil => simp [GoMap.set, GoMap.delete]
  | cons p rest ih =>
    obtain ⟨a, b⟩ := p
    by_cases hak : a = k
    · simp [GoMap.get, hak] at h
    · simp only [GoMap.get, hak, if_false] at h
      simp [GoMap.set, GoMap.delete, hak, ih h]

theorem wrapInt_pred_succ (c : Nat) (h : c < 2 ^ 63) : wrapInt (((c : Int) + 1) - 1) = c := by
  unfold wrapInt
  norm_num at h ⊢
  omega

theorem beatLoop_counts_down (key u : String) (rate count : Int) (hcount : count ≠ 0)
    (s : Store) (hs : s.get key = some ⟨u, 60⟩) :
    ∀ (c extra : Nat) (trace : List StoreOp) (out : List String), c < 2 ^ 63 →
      beatLoop modelEnv key u rate count (c + extra + 1) ((c : Int) + 1) s trace out
        = { store := s,
            trace := trace ++ List.replicate (c + 1) (StoreOp.set key u (renewOptions u)),
            out := out ++ List.replicate (c + 1) "Badum",
            status := Status.returned } := by
  obtain ⟨r, hr⟩ := modelSet_renew_ok s key u ⟨u, 60⟩ hs rfl
  have hsame : s.set key ⟨u, 60⟩ = s := by
    have := GoMap.get_set s key key (⟨u, 60⟩ : Entry)
    clear hr
    induction s with
    | nil => simp [GoMap.get] at hs
    | cons p rest ih =>
      obtain ⟨a, b⟩ := p
      by_cases hak : a = key
      · simp only [GoMap.get, hak, if_true, Option.some.injEq] at hs
        simp [GoMap.set, hak, hs]
      · simp only [GoMap.get, hak, if_false] at hs
        simp [GoMap.set, hak, ih hs (GoMap.get_set rest key key _)]
  rw [hsame] at hr
  have hstep : modelEnv.set (modelEnv.sleep s rate) key u (renewOptions u)
      = (Except.ok r, s) := hr
  intro c
  induction c with
  | zero =>
    intro extra trace out _
    have h0 : wrapInt 0 = 0 := by decide
    rw [Nat.zero_add, beatLoop_round_ok modelEnv key u rate count extra _ s s trace out r hstep]
    simp [hcount, h0]
  | succ c ih =>
    intro extra trace out hc
    have hc2 : c < 2 ^ 63 := Nat.lt_of_succ_lt hc
    have hw : wrapInt ((((c + 1 : Nat) : Int) + 1) - 1) = ((c : Int) + 1) := by
      rw [wrapInt_pred_succ (c + 1) hc]; push_cast; rfl
    have hne : ¬ ((c : Int) + 1 = 0) := by omega
    have hfuel : c + 1 + extra + 1 = (c + extra + 1) + 1 := by omega
    rw [hfuel, beatLoop_round_ok modelEnv key u rate count (c + extra + 1) _ s s trace out r hstep]
    simp only [hcount, ne_eq, not_false_eq_true, if_true, hw, hne, if_false]
    rw [ih extra _ _ hc2]
    simp [List.replicate_succ]

/-- A bounded heartbeat against the model store: with `count = c + 1` and the key
absent at the start, `doServerBeat` returns after one registering `Set`, `c + 1`
renewing `Set`s and the `Delete`, and leaves the store as it found it. -/
theorem doServerBeat_bounded_run (name u : String) (rate : Int) (c extra : Nat)
    (hc : c < 2 ^ 63) (store : Store) (habsent : store.get (runningbase ++ name) = none) :
    doServerBeat modelEnv name u rate ((c : Int) + 1) (c + extra + 1) store
      = { store := store,
          trace := StoreOp.set (runningbase ++ name) u registerOptions
            :: List.replicate (c + 1) (StoreOp.set (runningbase ++ name) u (renewOptions u))
            ++ [StoreOp.delete (runningbase ++ name) { prevValue := u }],
          out := List.replicate (c + 2) "Badum",
          status := Status.returned } := by
  have hreg : modelEnv.set store (runningbase ++ name) u registerOptions
      = (Except.ok ⟨"create", Node.leaf (runningbase ++ name) u⟩,
          store.set (runningbase ++ name) ⟨u, 60⟩) :=
    modelSet_register_absent store _ u habsent
  have hget : (store.set (runningbase ++ name) (⟨u, 60⟩ : Entry)).get (runningbase ++ name)
      = some ⟨u, 60⟩ := by
    rw [GoMap.get_set]; simp
  have hcount : ((c : Int) + 1) ≠ 0 := by omega
  obtain ⟨rd, hdel⟩ := modelDelete_ok _ (runningbase ++ name) u ⟨u, 60⟩ hget rfl
  rw [GoMap.delete_set_of_absent store _ _ habsent] at hdel
  have hdel2 : modelEnv.delete (store.set (runningbase ++ name) (⟨u, 60⟩ : Entry))
      (runningbase ++ name) { prevValue := u } = (Except.ok rd, store) := hdel
  rw [doServerBeat_registered modelEnv name u rate _ _ store _ _ hreg,
    beatLoop_counts_down (runningbase ++ name) u rate _ hcount _ hget c extra _ _ hc]
  simp only [if_true, beatDelete, hdel2]
  simp [List.replicate_succ]

/-! ## Heartbeat manager -/

/-- C3: at rate 1 and count 3 for server S1 against the empty model store, the run
prints "Badum" four times and issues three renewing `Set`s between the registering
`Set` and the `Delete`: four beats where the `count` flag is the number of beats; and
for no amount of fuel does it return after one register, two renewals and one
delete. -/
theorem heartbeat_count_three_sends_three_renewals :
    (doServerBeat modelEnv "S1" "6ba7b810-9dad-41d1-80b4-00c04fd430c8" 1 3 3 []).trace
      = [StoreOp.set "/running/S1" "6ba7b810-9dad-41d1-80b4-00c04fd430c8" registerOptions,
         StoreOp.set "/running/S1" "6ba7b810-9dad-41d1-80b4-00c04fd430c8"
           (renewOptions "6ba7b810-9dad-41d1-80b4-00c04fd430c8"),
         StoreOp.set "/running/S1" "6ba7b810-9dad-41d1-80b4-00c04fd430c8"
           (renewOptions "6ba7b810-9dad-41d1-80b4-00c04fd430c8"),
         StoreOp.set "/running/S1" "6ba7b810-9dad-41d1-80b4-00c04fd430c8"
           (renewOptions "6ba7b810-9dad-41d1-80b4-00c04fd430c8"),
         StoreOp.delete "/running/S1" { prevValue := "6ba7b810-9dad-41d1-80b4-00c04fd430c8" }]
    ∧ (doServerBeat modelEnv "S1" "6ba7b810-9dad-41d1-80b4-00c04fd430c8" 1 3 3 []).out
      = ["Badum", "Badum", "Badum", "Badum"]
    ∧ (doServerBeat modelEnv "S1" "6ba7b810-9dad-41d1-80b4-00c04fd430c8" 1 3 3 []).status
      = Status.returned
    ∧ ¬ ∃ fuel : Nat,
        (doServerBeat modelEnv "S1" "6ba7b810-9dad-41d1-80b4-00c04fd430c8" 1 3 fuel []).status
          = Status.returned
        ∧ (doServerBeat modelEnv "S1" "6ba7b810-9dad-41d1-80b4-00c04fd430c8" 1 3 fuel []).trace
          = [StoreOp.set "/running/S1" "6ba7b810-9dad-41d1-80b4-00c04fd430c8" registerOptions,
             StoreOp.set "/running/S1" "6ba7b810-9dad-41d1-80b4-00c04fd430c8"
               (renewOptions "6ba7b810-9dad-41d1-80b4-00c04fd430c8"),
             StoreOp.set "/running/S1" "6ba7b810-9dad-41d1-80b4-00c04fd430c8"
               (renewOptions "6ba7b810-9dad-41d1-80b4-00c04fd430c8"),
             StoreOp.delete "/running/S1"
               { prevValue := "6ba7b810-9dad-41d1-80b4-00c04fd430c8" }] := by
  refine ⟨by decide, by decide, by decide, ?_⟩
  rintro ⟨fuel, hs, ht⟩
  rcases fuel with _ | _ | _ | n
  · revert hs; decide
  · revert hs; decide
  · revert hs; decide
  · have hrun := doServerBeat_bounded_run "S1" "6ba7b810-9dad-41d1-80b4-00c04fd430c8" 1 2 n
      (by norm_num) [] (by decide)
    have hf : 2 + n + 1 = n + 1 + 1 + 1 := by omega
    have hc : (((2 : Nat) : Int) + 1) = 3 := by norm_num
    rw [hf, hc] at hrun
    rw [hrun] at ht
    simp [List.replicate] at ht

/-- C4: for every store state in which, when the renewal is issued, the value held at
the key differs from the session token or the key is absent, the renewing `Set` (with
`PrevExist` and `PrevValue` the token) gets an error from the model store ("Key not
found" or "Compare failed"), the round ends the heartbeat as fatal with that error,
the store is left as it was, and the trace grows by that one `Set` only; a run of
`doServerBeat` whose first renewal meets such a state issues the registering `Set`
and that renewal and nothing more.  The token is a UUID string, hence not empty. -/
theorem renewal_superseded_is_fatal (elapse : Store → Int → Store) (name u : String)
    (rate count : Int) (fuel : Nat) (counter : Int) (s : Store) (trace : List StoreOp)
    (out : List String) (hu : u ≠ "")
    (h : ∀ e, (elapse s rate).get (runningbase ++ name) = some e → e.value ≠ u) :
    ∃ err, (err = Err.keys 100 "Key not found" ∨ err = Err.keys 101 "Compare failed")
      ∧ modelSet (elapse s rate) (runningbase ++ name) u (renewOptions u)
          = (Except.error err, elapse s rate)
      ∧ beatLoop (modelEnvWith elapse) (runningbase ++ name) u rate count (fuel + 1) counter
            s trace out
          = { store := elapse s rate,
              trace := trace ++ [StoreOp.set (runningbase ++ name) u (renewOptions u)],
              out := out ++ ["Badum"],
              status := Status.fatal err }
      ∧ ∀ store0 : Store, store0.get (runningbase ++ name) = none →
          store0.set (runningbase ++ name) ⟨u, 60⟩ = s →
          doServerBeat (modelEnvWith elapse) name u rate count (fuel + 1) store0
            = { store := elapse s rate,
                trace := [StoreOp.set (runningbase ++ name) u registerOptions,
                          StoreOp.set (runningbase ++ name) u (renewOptions u)],
                out := ["Badum", "Badum"],
                status := Status.fatal err } := by
  obtain ⟨err, herr, hkind⟩ := modelSet_renew_mismatch (elapse s rate) (runningbase ++ name) u hu h
  have hstep : (modelEnvWith elapse).set ((modelEnvWith elapse).sleep s rate)
      (runningbase ++ name) u (renewOptions u) = (Except.error err, elapse s rate) := herr
  refine ⟨err, hkind, herr, ?_, ?_⟩
  · exact beatLoop_round_error (modelEnvWith elapse) _ u rate count fuel counter s _ trace out
      err hstep
  · intro store0 habsent hs
    have hreg : (modelEnvWith elapse).set store0 (runningbase ++ name) u registerOptions
        = (Except.ok ⟨"create", Node.leaf (runningbase ++ name) u⟩, s) := by
      rw [← hs]; exact modelSet_register_absent store0 _ u habsent
    rw [doServerBeat_registered (modelEnvWith elapse) name u rate count _ store0 _ _ hreg,
      beatLoop_round_error (modelEnvWith elapse) _ u rate count fuel count s _ _ _ err hstep]
    simp

/-- C4 at a concrete state: another session holds `running/S1` when the renewal is
issued. -/
theorem renewal_superseded_is_fatal_witness :
    "6ba7b810-9dad-41d1-80b4-00c04fd430c8" ≠ ""
    ∧ ∃ err, (err = Err.keys 100 "Key not found" ∨ err = Err.keys 101 "Compare failed")
      ∧ beatLoop (modelEnvWith (fun s _ => s)) (runningbase ++ "S1")
            "6ba7b810-9dad-41d1-80b4-00c04fd430c8" 1 3 (2 + 1) 3
            [("/running/S1", ⟨"0e37df36-f698-41d1-9a5e-35e8d7e3cbd1", 60⟩)] [] []
          = { store := [("/running/S1", ⟨"0e37df36-f698-41d1-9a5e-35e8d7e3cbd1", 60⟩)],
              trace := [] ++ [StoreOp.set (runningbase ++ "S1")
                "6ba7b810-9dad-41d1-80b4-00c04fd430c8"
                (renewOptions "6ba7b810-9dad-41d1-80b4-00c04fd430c8")],
              out := [] ++ ["Badum"],
              status := Status.fatal err } :=
  ⟨by decide,
   (renewal_superseded_is_fatal (fun s _ => s) "S1" "6ba7b810-9dad-41d1-80b4-00c04fd430c8" 1 3 2 3
      [("/running/S1", ⟨"0e37df36-f698-41d1-9a5e-35e8d7e3cbd1", 60⟩)] [] []
      (by decide) (by decide)).imp (fun _ hx => ⟨hx.1, hx.2.2.1⟩)⟩

/-- C5: registration is create-only.  For every store state, if `running/<server>`
already holds a value, `doServerBeat` ends as fatal at the registering `Set` with
"Key already exists", the store unchanged and that `Set` the only operation issued,
whatever the fuel; if the key is absent, the registering `Set` succeeds and the store
then holds the session token at `running/<server>` with a lease of 60 seconds, which
is the state the first round of the loop starts from. -/
theorem registration_create_only (elapse : Store → Int → Store) (name u : String)
    (rate count : Int) (fuel : Nat) (store : Store) :
    (∀ e, store.get (runningbase ++ name) = some e →
        doServerBeat (modelEnvWith elapse) name u rate count fuel store
          = { store := store,
              trace := [StoreOp.set (runningbase ++ name) u
                { prevValue := "", prevExist := PrevExistType.prevNoExist, ttl := 60 }],
              out := ["Badum"],
              status := Status.fatal (Err.keys 105 "Key already exists") })
    ∧ (store.get (runningbase ++ name) = none →
        modelSet store (runningbase ++ name) u registerOptions
          = (Except.ok ⟨"create", Node.leaf (runningbase ++ name) u⟩,
              store.set (runningbase ++ name) ⟨u, 60⟩)
        ∧ (store.set (runningbase ++ name) (⟨u, 60⟩ : Entry)).get (runningbase ++ name)
          = some ⟨u, 60⟩
        ∧ doServerBeat (modelEnvWith elapse) name u rate count 0 store
          = { store := store.set (runningbase ++ name) ⟨u, 60⟩,
              trace := [StoreOp.set (runningbase ++ name) u
                { prevValue := "", prevExist := PrevExistType.prevNoExist, ttl := 60 }],
              out := ["Badum"],
              status := Status.running }) := by
  constructor
  · intro e he
    exact doServerBeat_register_error (modelEnvWith elapse) name u rate count fuel store store _
      (modelSet_register_present store _ u e he)
  · intro habsent
    have hreg := modelSet_register_absent store (runningbase ++ name) u habsent
    refine ⟨hreg, by rw [GoMap.get_set]; simp, ?_⟩
    rw [doServerBeat_registered (modelEnvWith elapse) name u rate count 0 store _ _ hreg]
    simp [beatLoop, registerOptions]

/-- C5 at concrete stores: `running/S1` held by another session, and the empty store. -/
theorem registration_create_only_witness :
    doServerBeat (modelEnvWith (fun s _ => s)) "S1" "6ba7b810-9dad-41d1-80b4-00c04fd430c8" 1 3 3
        [("/running/S1", ⟨"0e37df36-f698-41d1-9a5e-35e8d7e3cbd1", 60⟩)]
      = { store := [("/running/S1", ⟨"0e37df36-f698-41d1-9a5e-35e8d7e3cbd1", 60⟩)],
          trace := [StoreOp.set (runningbase ++ "S1") "6ba7b810-9dad-41d1-80b4-00c04fd430c8"
            { prevValue := "", prevExist := PrevExistType.prevNoExist, ttl := 60 }],
          out := ["Badum"],
          status := Status.fatal (Err.keys 105 "Key already exists") }
    ∧ (GoMap.set ([] : Store) (runningbase ++ "S1")
          ⟨"6ba7b810-9dad-41d1-80b4-00c04fd430c8", 60⟩).get (runningbase ++ "S1")
        = some ⟨"6ba7b810-9dad-41d1-80b4-00c04fd430c8", 60⟩ :=
  ⟨(registration_create_only (fun s _ => s) "S1" "6ba7b810-9dad-41d1-80b4-00c04fd430c8" 1 3 3
      [("/running/S1", ⟨"0e37df36-f698-41d1-9a5e-35e8d7e3cbd1", 60⟩)]).1
      ⟨"0e37df36-f698-41d1-9a5e-35e8d7e3cbd1", 60⟩ (by decide),
   ((registration_create_only (fun s _ => s) "S1" "6ba7b810-9dad-41d1-80b4-00c04fd430c8" 1 3 3
      []).2 (by decide)).2.1⟩

/-- C8, as stated, fails: against a store that answers its first operation with a
`*client.ClusterError` and works afterwards, `doServerBeat` ends as fatal with that
error after the one registering `Set`, which it does not issue again, whatever the
fuel; started one operation later on the same store it runs to its end. -/
theorem heartbeat_cluster_error_not_retried :
    (doServerBeat flakyEnv "S1" "6ba7b810-9dad-41d1-80b4-00c04fd430c8" 1 3 3 (0, [])).status
      = Status.fatal (Err.cluster "etcd cluster is unavailable")
    ∧ (doServerBeat flakyEnv "S1" "6ba7b810-9dad-41d1-80b4-00c04fd430c8" 1 3 3 (0, [])).trace
      = [StoreOp.set "/running/S1" "6ba7b810-9dad-41d1-80b4-00c04fd430c8" registerOptions]
    ∧ (∀ fuel : Nat,
        (doServerBeat flakyEnv "S1" "6ba7b810-9dad-41d1-80b4-00c04fd430c8" 1 3 fuel
          (0, [])).status ≠ Status.running)
    ∧ (doServerBeat flakyEnv "S1" "6ba7b810-9dad-41d1-80b4-00c04fd430c8" 1 3 3 (1, [])).status
      = Status.returned := by
  refine ⟨by decide, by decide, ?_, by decide⟩
  intro fuel
  rw [doServerBeat_register_error flakyEnv "S1" _ 1 3 fuel (0, []) (1, [])
    (Err.cluster "etcd cluster is unavailable") rfl]
  decide

/-- C8, amended: `doServerBeat` retries nothing.  For each of its three store operations
(registering `Set`, renewing `Set`, terminating `Delete`) and for every error the store
returns, a `*client.ClusterError` included, the heartbeat ends as fatal with that
error at that operation, which appears once in the trace and is not issued again; and
a run that has registered ends with the state of its loop when the loop ended as
fatal, and with the state of the `Delete` when the loop was left normally. -/
theorem heartbeat_any_error_is_fatal {σ : Type} (env : Env σ) (name u : String)
    (rate count : Int) (fuel : Nat) (counter : Int) (store s1 : σ) (trace : List StoreOp)
    (out : List String) (err : Err) (r : Response) :
    (env.set store (runningbase ++ name) u registerOptions = (Except.error err, s1) →
        doServerBeat env name u rate count fuel store
          = { store := s1, trace := [StoreOp.set (runningbase ++ name) u registerOptions],
              out := ["Badum"], status := Status.fatal err })
    ∧ (env.set (env.sleep store rate) (runningbase ++ name) u (renewOptions u)
          = (Except.error err, s1) →
        beatLoop env (runningbase ++ name) u rate count (fuel + 1) counter store trace out
          = { store := s1,
              trace := trace ++ [StoreOp.set (runningbase ++ name) u (renewOptions u)],
              out := out ++ ["Badum"], status := Status.fatal err })
    ∧ (env.delete store (runningbase ++ name) { prevValue := u } = (Except.error err, s1) →
        beatDelete env (runningbase ++ name) u store trace out
          = { store := s1,
              trace := trace ++ [StoreOp.delete (runningbase ++ name) { prevValue := u }],
              out := out, status := Status.fatal err })
    ∧ (env.set store (runningbase ++ name) u registerOptions = (Except.ok r, s1) →
        ((beatLoop env (runningbase ++ name) u rate count fuel count s1
            [StoreOp.set (runningbase ++ name) u registerOptions] ["Badum"]).status
            ≠ Status.returned →
          doServerBeat env name u rate count fuel store
            = beatLoop env (runningbase ++ name) u rate count fuel count s1
                [StoreOp.set (runningbase ++ name) u registerOptions] ["Badum"])
        ∧ ((beatLoop env (runningbase ++ name) u rate count fuel count s1
            [StoreOp.set (runningbase ++ name) u registerOptions] ["Badum"]).status
            = Status.returned →
          doServerBeat env name u rate count fuel store
            = beatDelete env (runningbase ++ name) u
                (beatLoop env (runningbase ++ name) u rate count fuel count s1
                  [StoreOp.set (runningbase ++ name) u registerOptions] ["Badum"]).store
                (beatLoop env (runningbase ++ name) u rate count fuel count s1
                  [StoreOp.set (runningbase ++ name) u registerOptions] ["Badum"]).trace
                (beatLoop env (runningbase ++ name) u rate count fuel count s1
                  [StoreOp.set (runningbase ++ name) u registerOptions] ["Badum"]).out)) := by
  refine ⟨?_, ?_, ?_, ?_⟩
  · exact doServerBeat_register_error env name u rate count fuel store s1 err
  · exact beatLoop_round_error env _ u rate count fuel counter store s1 trace out err
  · intro h
    simp [beatDelete, h]
  · intro h
    rw [doServerBeat_registered env name u rate count fuel store s1 r h]
    constructor
    · intro hne; simp [hne]
    · intro heq; simp [heq]

/-- C8 amended, at the store that answers its first operation with a cluster error: the
registering `Set`, a renewal and the `Delete` each end the heartbeat as fatal. -/
theorem heartbeat_any_error_is_fatal_witness :
    doServerBeat flakyEnv "S1" "6ba7b810-9dad-41d1-80b4-00c04fd430c8" 1 3 3 (0, [])
      = { store := (1, []),
          trace := [StoreOp.set (runningbase ++ "S1") "6ba7b810-9dad-41d1-80b4-00c04fd430c8"
            registerOptions],
          out := ["Badum"],
          status := Status.fatal (Err.cluster "etcd cluster is unavailable") }
    ∧ beatLoop flakyEnv (runningbase ++ "S1") "6ba7b810-9dad-41d1-80b4-00c04fd430c8" 1 3 (2 + 1) 3
        (0, [("/running/S1", ⟨"6ba7b810-9dad-41d1-80b4-00c04fd430c8", 60⟩)]) [] []
      = { store := (1, [("/running/S1", ⟨"6ba7b810-9dad-41d1-80b4-00c04fd430c8", 60⟩)]),
          trace := [] ++ [StoreOp.set (runningbase ++ "S1")
            "6ba7b810-9dad-41d1-80b4-00c04fd430c8"
            (renewOptions "6ba7b810-9dad-41d1-80b4-00c04fd430c8")],
          out := [] ++ ["Badum"],
          status := Status.fatal (Err.cluster "etcd cluster is unavailable") }
    ∧ beatDelete flakyEnv (runningbase ++ "S1") "6ba7b810-9dad-41d1-80b4-00c04fd430c8"
        (0, [("/running/S1", ⟨"6ba7b810-9dad-41d1-80b4-00c04fd430c8", 60⟩)]) [] []
      = { store := (1, [("/running/S1", ⟨"6ba7b810-9dad-41d1-80b4-00c04fd430c8", 60⟩)]),
          trace := [] ++ [StoreOp.delete (runningbase ++ "S1")
            { prevValue := "6ba7b810-9dad-41d1-80b4-00c04fd430c8" }],
          out := [],
          status := Status.fatal (Err.cluster "etcd cluster is unavailable") } :=
  ⟨(heartbeat_any_error_is_fatal flakyEnv "S1" "6ba7b810-9dad-41d1-80b4-00c04fd430c8" 1 3 3 3
      (0, []) (1, []) [] [] (Err.cluster "etcd cluster is unavailable")
      ⟨"", Node.leaf "" ""⟩).1 rfl,
   (heartbeat_any_error_is_fatal flakyEnv "S1" "6ba7b810-9dad-41d1-80b4-00c04fd430c8" 1 3 2 3
      (0, [("/running/S1", ⟨"6ba7b810-9dad-41d1-80b4-00c04fd430c8", 60⟩)])
      (1, [("/running/S1", ⟨"6ba7b810-9dad-41d1-80b4-00c04fd430c8", 60⟩)]) [] []
      (Err.cluster "etcd cluster is unavailable") ⟨"", Node.leaf "" ""⟩).2.1 rfl,
   (heartbeat_any_error_is_fatal flakyEnv "S1" "6ba7b810-9dad-41d1-80b4-00c04fd430c8" 1 3 2 3
      (0, [("/running/S1", ⟨"6ba7b810-9dad-41d1-80b4-00c04fd430c8", 60⟩)])
      (1, [("/running/S1", ⟨"6ba7b810-9dad-41d1-80b4-00c04fd430c8", 60⟩)]) [] []
      (Err.cluster "etcd cluster is unavailable") ⟨"", Node.leaf "" ""⟩).2.2.1 rfl⟩

end Examplco2
